import Mathlib

/-!
Verification development for the AI self-healing CI/CD pipeline monitor.

The definitions below are a shallow embedding of the repository's decision
and remediation engine:

* `analyze_failure` embeds `pipeline-monitor/app/healing_engine.py`
  (`HealingEngine.analyze_failure`): the ordered pattern list, the
  first-match classification, the `fixable` flag (membership in the
  strategy registry) and the severity lookup.
* `identify_pattern` embeds `ml-models/failure_patterns.py`
  (`FailurePatternAnalyzer.identify_pattern`) with its full ordered
  pattern table.
* Python's `re.search(..., re.IGNORECASE)` is modelled by a Brzozowski
  derivative matcher over an abstract-syntax transcription of each regex
  used by the source (`searchRE`); capture groups do not influence the
  returned category, so they are modelled as plain subexpressions.
* `predict_healing_success` / `predict_failure` embed
  `pipeline-monitor/app/ml_predictor.py`; the external scikit-learn
  artifacts (scaler and models) are collaborators and are modelled as
  functions returning `Except` (an exception-or-value result).
* `processRun` embeds the per-run body of
  `pipeline-monitor/app/monitor_safe.py` (`run_safe_monitor`), and
  `mainProcessRun` the per-run body of `pipeline-monitor/app/main.py`
  (`monitor_pipelines`).  `set.pop()` of Python has no specified order,
  so eviction is parametrised by an arbitrary index-selection sequence.
* `fix_missing_dependency` embeds the `missing_dependency` remediation
  strategy of `healing_engine.py`; the GitHub repository is modelled as
  an optional requirements-file content.
-/

/-! ### A small regex engine (model of Python `re.search` with IGNORECASE) -/

/-- ASCII lower-casing on code points, used for case-insensitive matching. -/
def lowerNat (n : Nat) : Nat :=
  if 65 ≤ n ∧ n ≤ 90 then n + 32 else n

/-- Case-insensitive character equality (IGNORECASE semantics on ASCII). -/
def charEqCI (a b : Char) : Bool :=
  lowerNat a.toNat == lowerNat b.toNat

/-- Atomic character predicates occurring in the source's regexes:
a literal character, `\w`, `\d`, `\S`, `.` and a character class. -/
inductive CPred where
  | chr (c : Char)
  | word
  | digit
  | notSpace
  | anyc
  | oneOf (cs : List Char)
deriving Repr, DecidableEq

def isWordCharN (n : Nat) : Bool :=
  (48 ≤ n && n ≤ 57) || (65 ≤ n && n ≤ 90) || (97 ≤ n && n ≤ 122) || n == 95

def isDigitN (n : Nat) : Bool := 48 ≤ n && n ≤ 57

def isSpaceN (n : Nat) : Bool :=
  n == 32 || n == 9 || n == 10 || n == 13 || n == 11 || n == 12

def predMatches : CPred → Char → Bool
  | .chr c, d => charEqCI c d
  | .word, d => isWordCharN d.toNat
  | .digit, d => isDigitN d.toNat
  | .notSpace, d => !(isSpaceN d.toNat)
  | .anyc, d => d != '\n'
  | .oneOf cs, d => cs.any (fun c => charEqCI c d)

/-- Regular-expression abstract syntax. -/
inductive RE where
  | emp
  | eps
  | sym (p : CPred)
  | seq (a b : RE)
  | alt (a b : RE)
  | star (a : RE)
deriving Repr, DecidableEq

def RE.nullable : RE → Bool
  | .emp => false
  | .eps => true
  | .sym _ => false
  | .seq a b => a.nullable && b.nullable
  | .alt a b => a.nullable || b.nullable
  | .star _ => true

/-- Smart sequencing constructor (keeps derivative terms small). -/
def mkSeq (a b : RE) : RE :=
  match a, b with
  | .emp, _ => .emp
  | _, .emp => .emp
  | .eps, y => y
  | x, .eps => x
  | x, y => .seq x y

/-- Smart alternation constructor (keeps derivative terms small). -/
def mkAlt (a b : RE) : RE :=
  match a, b with
  | .emp, y => y
  | x, .emp => x
  | x, y => .alt x y

/-- Brzozowski derivative of a regex with respect to one character. -/
def rederiv (re : RE) (c : Char) : RE :=
  match re with
  | .emp => .emp
  | .eps => .emp
  | .sym p => if predMatches p c then .eps else .emp
  | .seq a b =>
      if a.nullable then mkAlt (mkSeq (rederiv a c) b) (rederiv b c)
      else mkSeq (rederiv a c) b
  | .alt a b => mkAlt (rederiv a c) (rederiv b c)
  | .star a => mkSeq (rederiv a c) (.star a)

/-- Does some leading segment of `cs` match `re`? -/
def matchesPrefixRE : RE → List Char → Bool
  | re, [] => re.nullable
  | re, c :: cs => re.nullable || matchesPrefixRE (rederiv re c) cs

/-- Model of Python `re.search`: does `re` match anywhere in `cs`? -/
def searchRE : RE → List Char → Bool
  | re, [] => re.nullable
  | re, c :: cs => matchesPrefixRE re (c :: cs) || searchRE re cs

/-! ### Regex construction helpers -/

/-- Literal string (each character matched case-insensitively). -/
def rlit (s : String) : RE :=
  s.toList.foldr (fun c acc => RE.seq (RE.sym (.chr c)) acc) RE.eps

def rcat (l : List RE) : RE := l.foldr RE.seq RE.eps

def rplus (r : RE) : RE := RE.seq r (RE.star r)

def rchr (c : Char) : RE := RE.sym (.chr c)

/-- The pattern `\w+`. -/
def wplus : RE := rplus (RE.sym .word)

/-- The pattern `\S+`. -/
def splus : RE := rplus (RE.sym .notSpace)

/-- The pattern `\d+`. -/
def dplus : RE := rplus (RE.sym .digit)

/-- The pattern `.*`. -/
def dotstar : RE := RE.star (RE.sym .anyc)

/-- The pattern `.+`. -/
def dotplus : RE := rplus (RE.sym .anyc)

/-- Apostrophe (single-quote) character. -/
def sqc : Char := Char.ofNat 39

/-- Double-quote character. -/
def dq : Char := Char.ofNat 34

/-- Backtick character. -/
def btk : Char := Char.ofNat 96

/-- The character class `['\"]` from `failure_patterns.py`. -/
def quoteCls : RE := RE.sym (.oneOf [sqc, dq])

/-! ### Pattern tables transcribed from the source -/

/-- Ordered pattern list of `HealingEngine.analyze_failure`
(`healing_engine.py`, lines 82-93), transcribed regex by regex. -/
def healingPatterns : List (RE × String) :=
  [ (rcat [rlit "ModuleNotFoundError: No module named ", rchr sqc, wplus, rchr sqc],
     "missing_dependency"),
    (rcat [rlit "ImportError: cannot import name ", rchr sqc, wplus, rchr sqc],
     "missing_dependency"),
    (rcat [rlit "ERROR: Could not find a version that satisfies the requirement ", splus],
     "missing_dependency"),
    (rcat [rlit "FAILED", dotstar, rlit "test_", wplus, dotstar, rlit "Timeout"],
     "test_timeout"),
    (rlit "AssertionError", "test_failure"),
    (rcat [rlit "Build step", dotstar, rlit "failed with exit code ", dplus],
     "build_failure"),
    (rlit "Error: Command failed: npm install", "npm_dependency_error"),
    (rcat [rlit "Deployment", dotstar, rlit "crashed"], "deployment_crash"),
    (rlit "OOMKilled", "resource_limit"),
    (RE.alt (rlit "Connection refused") (rlit "Connection timeout"), "network_timeout") ]

/-- Ordered pattern table of `FailurePatternAnalyzer` (`failure_patterns.py`,
lines 18-80), category by category in dict-insertion order. -/
def patternTable : List (String × List RE) :=
  [ ("missing_dependency",
      [ rcat [rlit "ModuleNotFoundError: No module named ", quoteCls, wplus, quoteCls],
        rcat [rlit "ImportError: cannot import name ", quoteCls, wplus, quoteCls],
        rcat [rlit "ERROR: Could not find a version that satisfies the requirement ", splus],
        rcat [rlit "npm ERR! 404  ", rchr sqc, splus, rchr sqc, rlit " is not in the npm registry"],
        rcat [rlit "Package ", quoteCls, wplus, quoteCls, rlit " not found"] ]),
    ("test_timeout",
      [ rcat [rlit "FAILED", dotstar, rlit "test_", wplus, dotstar, rlit "Timeout"],
        rlit "pytest.timeout.Timeout",
        rcat [rlit "Test exceeded ", dplus, rlit "s timeout"],
        rlit "TimeoutError" ]),
    ("test_failure",
      [ rcat [rlit "AssertionError: ", dotplus],
        rcat [rlit "FAILED", dotstar, rlit "test_", wplus],
        rcat [rlit "Error: Assertion ", rchr btk, dotplus, rchr btk, rlit " failed"],
        rcat [rlit "Expected ", dotplus, rlit " but got ", dotplus] ]),
    ("build_failure",
      [ rcat [rlit "Build step", dotstar, rlit "failed with exit code ", dplus],
        rlit "ERROR: Build failed",
        rcat [rlit "make: *** [", dotstar, rlit "] Error ", dplus],
        rlit "Compilation error" ]),
    ("deployment_crash",
      [ rcat [rlit "Deployment", dotstar, rlit "crashed"],
        rlit "CrashLoopBackOff",
        rlit "Error: Application failed to start",
        rlit "Health check failed" ]),
    ("resource_limit",
      [ rlit "OOMKilled",
        rlit "OutOfMemoryError",
        rlit "Resource limit exceeded",
        rlit "Disk space full" ]),
    ("network_timeout",
      [ rlit "Connection refused",
        rlit "Connection timeout",
        rcat [rlit "dial tcp", dotstar, rlit "timeout"],
        rlit "Network is unreachable" ]),
    ("syntax_error",
      [ rcat [rlit "SyntaxError: ", dotplus],
        rlit "IndentationError",
        rlit "invalid syntax",
        rlit "unexpected token" ]),
    ("permission_error",
      [ rlit "PermissionError",
        rlit "Permission denied",
        rlit "Access denied",
        rlit "Forbidden" ]),
    ("configuration_error",
      [ rlit "Configuration error",
        rlit "Invalid configuration",
        rcat [rlit "Missing required", dotstar, rlit "config"],
        rcat [rlit "KeyError: ", quoteCls, wplus, quoteCls] ]) ]

/-- Flattened ordered rule list of `identify_pattern`: the dict iteration
followed by the inner list iteration, preserving declaration order. -/
def ruleList : List (RE × String) :=
  patternTable.foldr (fun ct acc => (ct.2.map (fun r => (r, ct.1))) ++ acc) []

/-- Default rule used for total indexing into rule lists. -/
def dfltRule : RE × String := (RE.emp, "unknown")

/-- First matching rule across an ordered rule list: the shared evaluation
scheme of both classifiers (`for ...: if re.search(...): return/break`). -/
def findFirstType : List (RE × String) → List Char → Option String
  | [], _ => none
  | (re, t) :: rest, cs =>
      if searchRE re cs then some t else findFirstType rest cs

/-- `FailurePatternAnalyzer.identify_pattern` (`failure_patterns.py`,
lines 95-109), restricted to the returned category (`pattern_type`);
the `details` dict only repeats the category and match metadata. -/
def identify_pattern (logs : List Char) : String :=
  match findFirstType ruleList logs with
  | some t => t
  | none => "unknown"

/-- Keys of `HealingEngine.strategies` (`healing_engine.py`, lines 57-65). -/
def strategiesKeys : List String :=
  [ "missing_dependency", "test_timeout", "flaky_test", "build_failure",
    "deployment_crash", "resource_limit", "network_timeout" ]

/-- Severity computation of `analyze_failure` (`healing_engine.py`,
lines 119-126), applied to the resolved error type. -/
def severityOf (t : String) : String :=
  if t ∈ ["deployment_crash", "resource_limit"] then "critical"
  else if t ∈ ["missing_dependency", "build_failure"] then "high"
  else "medium"

/-- The fields of the analysis dict that drive the decision logic.
`error_message`, `stack_trace` and the extracted package are not used by
any categorical claim and are omitted. -/
structure Analysis where
  error_type : String
  fixable : Bool
  severity : String
deriving Repr, DecidableEq

/-- `HealingEngine.analyze_failure` (`healing_engine.py`, lines 67-129):
first matching pattern sets the error type and the fixable flag
(membership in the strategy registry); severity is then looked up from
the resolved error type; no match leaves the `unknown` defaults. -/
def analyze_failure (logs : List Char) : Analysis :=
  match findFirstType healingPatterns logs with
  | some t => ⟨t, strategiesKeys.contains t, severityOf t⟩
  | none => ⟨"unknown", false, severityOf "unknown"⟩

/-! ### SuccessPredictor (`ml_predictor.py`) -/

/-- Composition of the external scaler and model collaborators:
`scaler.transform` followed by `predict_proba`.  Either artifact may
raise, modelled by `Except`. -/
def runModel (scaler : List ℚ → Except String (List ℚ))
    (model : List ℚ → Except String ℚ) (feats : List ℚ) : Except String ℚ :=
  match scaler feats with
  | Except.error e => Except.error e
  | Except.ok scaled => model scaled

/-- Inputs of `_healing_features` read from the failure-analysis dict
(`ml_predictor.py`, lines 128-135). -/
structure FailureAnalysisIn where
  fixable : Bool
  stack_trace : String
  missing_package : Option String
  severity : String

/-- Python truthiness of an optional string (`None` and `""` are falsy). -/
def optStrTruthy : Option String → Bool
  | none => false
  | some s => !(s == "")

/-- Severity weight dict lookup with default
(`{"critical": 1, "high": 0.8, "medium": 0.5}.get(sev, 0.3)`). -/
def sevWeight (s : String) : ℚ :=
  if s = "critical" then 1
  else if s = "high" then mkRat 4 5
  else if s = "medium" then mkRat 1 2
  else mkRat 3 10

/-- `FailurePredictor._healing_features` (`ml_predictor.py`, lines 128-135). -/
def healing_features (f : FailureAnalysisIn) : List ℚ :=
  [ if f.fixable then 1 else 0,
    (f.stack_trace.length : ℚ),
    if optStrTruthy f.missing_package then 1 else 0,
    sevWeight f.severity,
    mkRat 4 5 ]

/-- `FailurePredictor.predict_healing_success` (`ml_predictor.py`,
lines 89-102): absent healing model gives the fallback 0.5; the whole
body is inside `try/except` returning 0.5 on any exception, so an
erroring collaborator also yields 0.5. -/
def predict_healing_success (healing_model : Option (List ℚ → Except String ℚ))
    (scaler : List ℚ → Except String (List ℚ)) (f : FailureAnalysisIn) : ℚ :=
  match healing_model with
  | none => mkRat 1 2
  | some m =>
      match runModel scaler m (healing_features f) with
      | Except.ok p => p
      | Except.error _ => mkRat 1 2

/-- `FailurePredictor._risk` (`ml_predictor.py`, lines 140-145). -/
def riskBand (p : ℚ) : String :=
  if mkRat 4 5 ≤ p then "very_high"
  else if mkRat 3 5 ≤ p then "high"
  else if mkRat 2 5 ≤ p then "medium"
  else if mkRat 1 5 ≤ p then "low"
  else "very_low"

/-- `FailurePredictor._factors` (`ml_predictor.py`, lines 147-153). -/
def riskFactors (features : List ℚ) : List String :=
  let out :=
    (if 2 < features.getD 6 0 then ["High recent failure rate"] else []) ++
    (if 0 < features.getD 7 0 then ["Dependency changes"] else []) ++
    (if 300 < features.getD 3 0 then ["Large commit size"] else []) ++
    (if features.getD 9 0 < 70 then ["Low test coverage"] else [])
  if out = [] then ["No major risk factors"] else out

/-- Result dict of `predict_failure` in the model-loaded success case. -/
structure FailurePrediction where
  will_fail : Bool
  confidence : ℚ
  risk_level : String
  factors : List String
deriving Repr, DecidableEq

/-- `FailurePredictor.predict_failure` (`ml_predictor.py`, lines 67-87):
unloaded model gives an error dict; an exception from the collaborators
gives an error dict; otherwise `will_fail` is `prob > 0.5`. -/
def predict_failure (is_model_loaded : Bool)
    (scaler : List ℚ → Except String (List ℚ))
    (model : List ℚ → Except String ℚ)
    (features : List ℚ) : Except String FailurePrediction :=
  if is_model_loaded = false then Except.error "Model not loaded"
  else
    match runModel scaler model features with
    | Except.error e => Except.error e
    | Except.ok prob =>
        Except.ok ⟨decide (mkRat 1 2 < prob), prob, riskBand prob, riskFactors features⟩

/-! ### Flakiness determination (`failure_patterns.py`) -/

/-- Failure rate of a pass/fail history (`True` = pass, `False` = fail):
`test_history.count(False) / len(test_history)` as an exact rational
(`mkRat n d` equals `n / d` for every nonzero denominator, and
`is_flaky_test` divides only after ensuring the length is at least 5). -/
def failure_rate (h : List Bool) : ℚ :=
  mkRat (h.count false) h.length

/-- `FailurePatternAnalyzer.is_flaky_test` (`failure_patterns.py`,
lines 144-150). -/
def is_flaky_test (h : List Bool) : Bool :=
  if h.length < 5 then false
  else decide (mkRat 1 5 ≤ failure_rate h ∧ failure_rate h ≤ mkRat 4 5)

/-! ### The missing-dependency remediation strategy (`healing_engine.py`) -/

/-- Does `needle` occur as a leading segment of `hay`? -/
def leadsWith : List Char → List Char → Bool
  | _, [] => true
  | [], _ :: _ => false
  | c :: cs, d :: ds => c == d && leadsWith cs ds

/-- Contiguous-substring test on character lists. -/
def containsSeq : List Char → List Char → Bool
  | [], needle => needle.isEmpty
  | c :: t, needle => leadsWith (c :: t) needle || containsSeq t needle

/-- Python's `needle in hay` substring test (case-sensitive). -/
def strContains (hay needle : String) : Bool :=
  containsSeq hay.toList needle.toList

def isPySpace (c : Char) : Bool := isSpaceN c.toNat

/-- Python `str.strip()`: drop whitespace from both ends. -/
def pyStrip (s : String) : String :=
  ⟨((s.toList.dropWhile isPySpace).reverse.dropWhile isPySpace).reverse⟩

/-- Python `str.lstrip("\n")`: drop leading newline characters. -/
def pyLstripNL (s : String) : String :=
  ⟨s.toList.dropWhile (fun c => c == '\n')⟩

/-- The new requirements content written by `fix_missing_dependency`:
`(current_content.strip() + f"\n{missing_package}\n").lstrip("\n")`. -/
def newRequirements (cur pkg : String) : String :=
  pyLstripNL (pyStrip cur ++ "\n" ++ pkg ++ "\n")

/-- Structured strategy outcome (`success`, `details`, `changes_made`). -/
structure FixResult where
  success : Bool
  details : String
  changes_made : List String
deriving Repr, DecidableEq

/-- Repository collaborator state for the manifest strategy:
`none` = repo not configured (`self.repo is None`); `some none` = repo
configured but `requirements.txt` absent (`get_contents` raises, the
source then uses `""`); `some (some c)` = file present with content `c`. -/
abbrev RepoReq := Option (Option String)

/-- The requirements content the strategy reads
(`current_content` in `fix_missing_dependency`). -/
def currentReqContent (repo : RepoReq) : String :=
  match repo with
  | some (some c) => c
  | _ => ""

/-- `HealingEngine.fix_missing_dependency` (`healing_engine.py`,
lines 172-242), returning the outcome together with the new repository
state (the manifest content after any `update_file`/`create_file`). -/
def fix_missing_dependency (missing_package : Option String) (repo : RepoReq) :
    FixResult × RepoReq :=
  if optStrTruthy missing_package = false then
    (⟨false, "Could not identify missing package", []⟩, repo)
  else
    let pkg := missing_package.getD ""
    let current_content := currentReqContent repo
    if strContains current_content pkg then
      (⟨false, pkg ++ " already in requirements.txt", []⟩, repo)
    else
      match repo with
      | some _ =>
          (⟨true, "Added " ++ pkg ++ " to requirements.txt",
            ["requirements.txt: +" ++ pkg]⟩,
           some (some (newRequirements current_content pkg)))
      | none =>
          (⟨false, "Repository not configured; would add missing dependency in a real run",
            ["requirements.txt: +" ++ pkg ++ " (suggested)"]⟩,
           none)

/-! ### The polling/dedup trackers (`monitor_safe.py` and `main.py`) -/

/-- Gate of `handle_pipeline_failure` (`main.py`, line 217):
`success_probability > 0.70`. -/
def handleFailureGate (p : ℚ) : Bool := decide (mkRat 7 10 < p)

/-- Gate of `run_safe_monitor` (`monitor_safe.py`, line 147) and of
`monitor_pipelines` (`main.py`, line 411):
`prob and float(prob) > 0.7` (Python truthiness of the float, then the
strict comparison). -/
def safeMonitorGate (p : ℚ) : Bool :=
  (decide (p ≠ 0)) && (decide (mkRat 7 10 < p))

/-- Observed run fields used by the loops: the id, the conclusion, and
the healing-success probability the predictor returns for its analysis. -/
structure RunInfo where
  id : Nat
  conclusion : Option String
  prob : ℚ

/-- One `last_seen.pop()`: Python specifies only that some present
element is removed, so the removed position is an arbitrary index
selection reduced modulo the current size. -/
def popArb (sel : Nat) (l : List Nat) : List Nat :=
  l.eraseIdx (sel % l.length)

/-- The eviction loop `while len(last_seen) > 100: last_seen.pop()`
(`monitor_safe.py`, lines 73-76), fuelled by the starting size. -/
def evictLoop : Nat → (Nat → Nat) → List Nat → List Nat
  | 0, _, l => l
  | fuel + 1, sel, l =>
      if 100 < l.length then evictLoop fuel (fun k => sel (k + 1)) (popArb (sel 0) l)
      else l

/-- State of `run_safe_monitor`: the `last_seen` dedup set (kept in
insertion order, oldest first), the run ids for which `analyze_failure`
was invoked (the FailureRecord creations of the spec), and the run ids
for which `heal` was invoked (the RemediationAttempt creations). -/
structure MonState where
  lastSeen : List Nat
  processedFailures : List Nat
  healCalls : List Nat
deriving Repr, DecidableEq

def initMonState : MonState := ⟨[], [], []⟩

/-- Per-run body of `run_safe_monitor` (`monitor_safe.py`, lines 58-153):
skip if seen; otherwise add to `last_seen`, trim it when above 200, and
on a `failure` conclusion analyze and conditionally heal. -/
def processRun (sel : Nat → Nat) (st : MonState) (r : RunInfo) : MonState :=
  if r.id ∈ st.lastSeen then st
  else
    let seen1 := st.lastSeen ++ [r.id]
    let seen2 := if 200 < seen1.length then evictLoop seen1.length sel seen1 else seen1
    if r.conclusion = some "failure" then
      if safeMonitorGate r.prob then
        ⟨seen2, st.processedFailures ++ [r.id], st.healCalls ++ [r.id]⟩
      else
        ⟨seen2, st.processedFailures ++ [r.id], st.healCalls⟩
    else ⟨seen2, st.processedFailures, st.healCalls⟩

def processRuns (sel : Nat → Nat) (st : MonState) (rs : List RunInfo) : MonState :=
  rs.foldl (processRun sel) st

/-- State of `monitor_pipelines` (`main.py`): the single module-level
`last_seen_run` variable plus the same processing trace. -/
structure MainMonState where
  lastSeenRun : Option Nat
  processedFailures : List Nat
  healCalls : List Nat
deriving Repr, DecidableEq

def initMainMonState : MainMonState := ⟨none, [], []⟩

/-- Per-run body of `monitor_pipelines` (`main.py`, lines 314-421):
skip only when the id equals the single most recently seen id. -/
def mainProcessRun (st : MainMonState) (r : RunInfo) : MainMonState :=
  if st.lastSeenRun = some r.id then st
  else
    if r.conclusion = some "failure" then
      if safeMonitorGate r.prob then
        ⟨some r.id, st.processedFailures ++ [r.id], st.healCalls ++ [r.id]⟩
      else
        ⟨some r.id, st.processedFailures ++ [r.id], st.healCalls⟩
    else ⟨some r.id, st.processedFailures, st.healCalls⟩

def mainProcessRuns (st : MainMonState) (rs : List RunInfo) : MainMonState :=
  rs.foldl mainProcessRun st

/-! ### Spec-side definitions (for refinement-style claims) -/

/-- Modelled from the spec: the closed category enumeration of §4.1. -/
def closedCategories : List String :=
  [ "missing_dependency", "test_timeout", "test_failure", "build_failure",
    "deployment_crash", "resource_limit", "network_timeout", "syntax_error",
    "permission_error", "configuration_error", "unknown" ]

/-- Modelled from the spec: the fixed severity lookup of §4.1
(`deployment_crash`/`resource_limit` critical; `missing_dependency`/
`build_failure` high; everything else medium). -/
def severityLookupSpec (cat : String) : String :=
  if cat = "deployment_crash" ∨ cat = "resource_limit" then "critical"
  else if cat = "missing_dependency" ∨ cat = "build_failure" then "high"
  else "medium"

/-! ### Concrete inputs used by the claim instances -/

/-- Run A: a failed run with high predicted healing probability. -/
def runA : RunInfo := ⟨1, some "failure", mkRat 4 5⟩

/-- Run B: a distinct successful run observed between the two sightings
of run A. -/
def runB : RunInfo := ⟨2, some "success", 0⟩

/-- Log matching both a `missing_dependency` rule (declared first) and a
`test_failure` rule. -/
def comboLog : String :=
  "ModuleNotFoundError: No module named \"x\"\nAssertionError: y"

/-- A `last_seen` set holding run ids 1..200 in insertion order
(1 is the oldest). -/
def fullSeenState : MonState := ⟨(List.range 200).map (fun n => n + 1), [], []⟩

/-- The 201st observed run, which triggers the eviction branch. -/
def newestRun : RunInfo := ⟨201, some "success", 0⟩

/-- A pop-order selection (legal for Python `set.pop`, which removes an
unspecified element) that always removes the most recently inserted
element. -/
def newestPopSel : Nat → Nat := fun k => 200 - k

/-! ### Helper lemmas -/

/-- First-match evaluation returns the category of the least-index
matching rule. -/
theorem findFirstType_eq_of_min :
    ∀ (rules : List (RE × String)) (cs : List Char) (i : Nat),
      i < rules.length →
      searchRE (rules.getD i dfltRule).1 cs = true →
      (∀ j, j < i → searchRE (rules.getD j dfltRule).1 cs = false) →
      findFirstType rules cs = some (rules.getD i dfltRule).2 := by
  intro rules
  induction rules with
  | nil => intro cs i hi; simp at hi
  | cons hd tl ih =>
      intro cs i hi hm hearlier
      cases i with
      | zero =>
          simp only [List.getD_cons_zero] at hm ⊢
          cases hd with
          | mk re t => simp [findFirstType, hm]
      | succ k =>
          have h0 : searchRE hd.1 cs = false := by
            have := hearlier 0 (Nat.succ_pos k)
            simpa using this
          cases hd with
          | mk re t =>
              simp only at h0
              simp only [findFirstType, h0, Bool.false_eq_true, if_false]
              simp only [List.getD_cons_succ] at hm ⊢
              exact ih cs k (by simpa using hi) hm
                (fun j hj => by
                  have := hearlier (j + 1) (Nat.succ_lt_succ hj)
                  simpa using this)

/-- First-match evaluation only returns categories present in the table. -/
theorem findFirstType_mem :
    ∀ (rules : List (RE × String)) (cs : List Char) (t : String),
      findFirstType rules cs = some t → t ∈ rules.map Prod.snd := by
  intro rules
  induction rules with
  | nil => intro cs t h; simp [findFirstType] at h
  | cons hd tl ih =>
      intro cs t h
      cases hd with
      | mk re u =>
          by_cases hs : searchRE re cs = true
          · simp [findFirstType, hs] at h
            simp [h]
          · simp only [Bool.not_eq_true] at hs
            simp [findFirstType, hs] at h
            exact List.mem_cons_of_mem _ (ih cs t h)

/-- The safe-monitor gate is equivalent to the strict threshold test. -/
theorem safeGate_iff (p : ℚ) : safeMonitorGate p = true ↔ mkRat 7 10 < p := by
  unfold safeMonitorGate
  by_cases hp : mkRat 7 10 < p
  · have hne : p ≠ 0 := by
      have h0 : (0:ℚ) < mkRat 7 10 := by decide
      exact (lt_trans h0 hp).ne'
    simp [hp, hne]
  · simp [hp]

/-- The severity computation of the source equals the spec's lookup. -/
theorem severityOf_eq_spec (t : String) : severityOf t = severityLookupSpec t := by
  simp [severityOf, severityLookupSpec]

/-! ### Claim theorems -/

/-- Claim C1: remediation dispatch is gated strictly by predicted
healing-success probability greater than 0.70 at every call site; 0.70
itself never dispatches, 0.701 does; and in the safe-monitor step,
`heal` is invoked on a fresh failed run exactly when the probability
exceeds 0.70. -/
theorem c1_heal_gate_strict :
    (∀ p : ℚ, handleFailureGate p = true ↔ mkRat 7 10 < p)
  ∧ handleFailureGate (mkRat 7 10) = false
  ∧ handleFailureGate (mkRat 701 1000) = true
  ∧ (∀ p : ℚ, safeMonitorGate p = handleFailureGate p)
  ∧ (∀ (sel : Nat → Nat) (st : MonState) (r : RunInfo),
      r.id ∉ st.lastSeen → r.conclusion = some "failure" →
      ((processRun sel st r).healCalls = st.healCalls ++ [r.id] ↔ mkRat 7 10 < r.prob)) := by
  refine ⟨?_, by decide, by decide, ?_, ?_⟩
  · intro p; simp [handleFailureGate]
  · intro p
    rw [Bool.eq_iff_iff, safeGate_iff]
    simp [handleFailureGate]
  · intro sel st r hmem hc
    by_cases g : safeMonitorGate r.prob = true
    · have hp := (safeGate_iff r.prob).mp g
      simp [processRun, hmem, hc, g, hp]
    · have hp : ¬ (mkRat 7 10 < r.prob) := fun hlt => g ((safeGate_iff r.prob).mpr hlt)
      simp [processRun, hmem, hc, g, hp]

/-- Witness for C1: a fresh failed run with probability 0.8 gets exactly
one heal invocation recorded. -/
theorem c1_heal_gate_strict_witness :
    (processRun (fun _ => 0) initMonState ⟨1, some "failure", mkRat 4 5⟩).healCalls = [1] :=
  (c1_heal_gate_strict.2.2.2.2 (fun _ => 0) initMonState ⟨1, some "failure", mkRat 4 5⟩
    (by decide) rfl).mpr (by decide)

/-- Claim C2 counterexample: in `monitor_pipelines` (`main.py`), which
remembers only the single most recently seen run id, run id 1 appearing
in two consecutive polls with run 2 observed in between is processed
twice: two FailureRecords and two heal invocations. -/
theorem c2_dedup_counterexample :
    ((mainProcessRuns initMainMonState [runA, runB, runA]).processedFailures.count 1 = 2)
  ∧ ((mainProcessRuns initMainMonState [runA, runB, runA]).healCalls.count 1 = 2) := by
  constructor <;> decide

/-- Claim C2 (amended): in the set-based safe monitor, feeding the same
failed run twice within one eviction window yields exactly one
FailureRecord and at most one RemediationAttempt. -/
theorem c2_dedup_amended :
    ∀ (sel : Nat → Nat) (r : RunInfo), r.conclusion = some "failure" →
      (processRuns sel initMonState [r, r]).processedFailures = [r.id]
    ∧ (processRuns sel initMonState [r, r]).healCalls.length ≤ 1 := by
  intro sel r hc
  by_cases g : safeMonitorGate r.prob = true
  · have h1 : processRun sel initMonState r = ⟨[r.id], [r.id], [r.id]⟩ := by
      simp [processRun, initMonState, hc, g]
    have h2 : processRun sel ⟨[r.id], [r.id], [r.id]⟩ r = ⟨[r.id], [r.id], [r.id]⟩ := by
      simp [processRun]
    simp [processRuns, h1, h2]
  · have h1 : processRun sel initMonState r = ⟨[r.id], [r.id], []⟩ := by
      simp [processRun, initMonState, hc, g]
    have h2 : processRun sel ⟨[r.id], [r.id], []⟩ r = ⟨[r.id], [r.id], []⟩ := by
      simp [processRun]
    simp [processRuns, h1, h2]

/-- Witness for C2 (amended): run 1 failed with probability 0.8, fed
twice from the initial state. -/
theorem c2_dedup_amended_witness :
    (processRuns (fun _ => 0) initMonState [runA, runA]).processedFailures = [1]
  ∧ (processRuns (fun _ => 0) initMonState [runA, runA]).healCalls.length ≤ 1 :=
  c2_dedup_amended (fun _ => 0) runA rfl

/-- Claim C3: healing-success prediction returns exactly 0.5 when the
healing model is absent, and converts any collaborator exception to 0.5
instead of raising; when scoring succeeds it returns the scored
probability. -/
theorem c3_healing_fallback :
    (∀ (scaler : List ℚ → Except String (List ℚ)) (f : FailureAnalysisIn),
        predict_healing_success none scaler f = mkRat 1 2)
  ∧ (∀ (m : List ℚ → Except String ℚ) (scaler : List ℚ → Except String (List ℚ))
        (f : FailureAnalysisIn) (e : String),
        runModel scaler m (healing_features f) = Except.error e →
        predict_healing_success (some m) scaler f = mkRat 1 2)
  ∧ (∀ (m : List ℚ → Except String ℚ) (scaler : List ℚ → Except String (List ℚ))
        (f : FailureAnalysisIn) (p : ℚ),
        runModel scaler m (healing_features f) = Except.ok p →
        predict_healing_success (some m) scaler f = p) := by
  refine ⟨fun _ _ => rfl, ?_, ?_⟩
  · intro m sc f e h; simp [predict_healing_success, h]
  · intro m sc f p h; simp [predict_healing_success, h]

/-- Witness for C3: an absent model and a raising model both yield 0.5
on a concrete analysis. -/
theorem c3_healing_fallback_witness :
    predict_healing_success none (fun l => Except.ok l) ⟨true, "", none, "high"⟩ = mkRat 1 2
  ∧ predict_healing_success (some (fun _ => Except.error "boom")) (fun l => Except.ok l)
      ⟨true, "", none, "high"⟩ = mkRat 1 2 :=
  ⟨c3_healing_fallback.1 _ _, c3_healing_fallback.2.1 _ _ _ "boom" rfl⟩

/-- Claim C4 counterexample: the log `Error: Command failed: npm install`
is classified by `analyze_failure` as `npm_dependency_error`, which is
outside the spec's closed category enumeration. -/
theorem c4_category_counterexample :
    (analyze_failure "Error: Command failed: npm install".toList).error_type
      = "npm_dependency_error"
  ∧ (analyze_failure "Error: Command failed: npm install".toList).error_type
      ∉ closedCategories := by
  constructor
  · decide
  · decide

/-- Claim C4 (amended): `identify_pattern` always returns a category in
the closed enumeration; `analyze_failure` always returns a category in
the closed enumeration extended with `npm_dependency_error`. -/
theorem c4_category_amended :
    (∀ logs : List Char, identify_pattern logs ∈ closedCategories)
  ∧ (∀ logs : List Char,
        (analyze_failure logs).error_type ∈ "npm_dependency_error" :: closedCategories) := by
  constructor
  · intro logs
    cases h : findFirstType ruleList logs with
    | none => simp [identify_pattern, h]; decide
    | some t =>
        have ht := findFirstType_mem ruleList logs t h
        have hsub : ∀ x ∈ ruleList.map Prod.snd, x ∈ closedCategories := by decide
        simp only [identify_pattern, h]
        exact hsub t ht
  · intro logs
    cases h : findFirstType healingPatterns logs with
    | none => simp [analyze_failure, h]; decide
    | some t =>
        have ht := findFirstType_mem healingPatterns logs t h
        have hsub : ∀ x ∈ healingPatterns.map Prod.snd,
            x ∈ "npm_dependency_error" :: closedCategories := by decide
        simp only [analyze_failure, h]
        exact hsub t ht

/-- Claim C5: first-match precedence — for both classifiers, the rule at
the least matching index in the declared order determines the returned
category. -/
theorem c5_first_match_precedence :
    (∀ (logs : List Char) (i : Nat), i < ruleList.length →
        searchRE (ruleList.getD i dfltRule).1 logs = true →
        (∀ j, j < i → searchRE (ruleList.getD j dfltRule).1 logs = false) →
        identify_pattern logs = (ruleList.getD i dfltRule).2)
  ∧ (∀ (logs : List Char) (i : Nat), i < healingPatterns.length →
        searchRE (healingPatterns.getD i dfltRule).1 logs = true →
        (∀ j, j < i → searchRE (healingPatterns.getD j dfltRule).1 logs = false) →
        (analyze_failure logs).error_type = (healingPatterns.getD i dfltRule).2) := by
  constructor
  · intro logs i hi hm he
    have h := findFirstType_eq_of_min ruleList logs i hi hm he
    simp [identify_pattern, h]
  · intro logs i hi hm he
    have h := findFirstType_eq_of_min healingPatterns logs i hi hm he
    simp [analyze_failure, h]

/-- Witness for C5: on `comboLog` the first-declared rule wins
(`missing_dependency` beats the also-matching `test_failure` rule at
index 9), and a log whose least matching rule has index 9 resp. 4 gets
that rule's category. -/
theorem c5_first_match_precedence_witness :
    searchRE (ruleList.getD 0 dfltRule).1 comboLog.toList = true
  ∧ searchRE (ruleList.getD 9 dfltRule).1 comboLog.toList = true
  ∧ identify_pattern comboLog.toList = "missing_dependency"
  ∧ identify_pattern "AssertionError: x".toList = "test_failure"
  ∧ (analyze_failure "AssertionError: x".toList).error_type = "test_failure" :=
  ⟨by decide, by decide,
   c5_first_match_precedence.1 comboLog.toList 0 (by decide) (by decide) (by decide),
   c5_first_match_precedence.1 "AssertionError: x".toList 9 (by decide) (by decide) (by decide),
   c5_first_match_precedence.2 "AssertionError: x".toList 4 (by decide) (by decide) (by decide)⟩

/-- Claim C6: a test is flagged flaky iff the history has at least 5
observations and the failure rate lies in [0.20, 0.80]; the spec's two
example histories behave as stated. -/
theorem c6_flakiness_rule :
    (∀ h : List Bool, is_flaky_test h = true ↔
        (5 ≤ h.length ∧ mkRat 1 5 ≤ failure_rate h ∧ failure_rate h ≤ mkRat 4 5))
  ∧ is_flaky_test [true, false, true, false, true] = true
  ∧ is_flaky_test [true, true, true, true] = false := by
  refine ⟨?_, by decide, by decide⟩
  intro h
  unfold is_flaky_test
  by_cases hl : h.length < 5
  · rw [if_pos hl]
    constructor
    · intro hft; exact (Bool.false_ne_true hft).elim
    · rintro ⟨h5, -⟩; exact absurd h5 (by omega)
  · rw [if_neg hl, decide_eq_true_iff]
    constructor
    · intro hc; exact ⟨by omega, hc⟩
    · intro hc; exact hc.2

/-- Claim C7: severity is a fixed lookup on the category, and an
`unknown` category is never fixable. -/
theorem c7_severity_lookup :
    ∀ logs : List Char,
      (analyze_failure logs).severity = severityLookupSpec ((analyze_failure logs).error_type)
    ∧ ((analyze_failure logs).error_type = "unknown" → (analyze_failure logs).fixable = false) := by
  intro logs
  cases h : findFirstType healingPatterns logs with
  | none =>
      refine ⟨?_, fun _ => ?_⟩
      · simp [analyze_failure, h, severityOf_eq_spec]
      · simp [analyze_failure, h]
  | some t =>
      refine ⟨?_, fun ht => ?_⟩
      · simp [analyze_failure, h, severityOf_eq_spec]
      · simp only [analyze_failure, h] at ht ⊢
        subst ht
        decide

/-- Witness for C7: an unmatched log is `unknown` and not fixable. -/
theorem c7_severity_lookup_witness :
    (analyze_failure "all good here".toList).fixable = false :=
  (c7_severity_lookup "all good here".toList).2 (by decide)

/-- Claim C8: the missing-dependency strategy leaves the manifest
untouched and reports the already-present package when it is already in
the manifest, and writes the appended manifest only when the package is
absent. -/
theorem c8_manifest_noop :
    ∀ (pkg : String) (repo : RepoReq), pkg ≠ "" →
      (strContains (currentReqContent repo) pkg = true →
        (fix_missing_dependency (some pkg) repo).2 = repo
      ∧ (fix_missing_dependency (some pkg) repo).1.details = pkg ++ " already in requirements.txt"
      ∧ (fix_missing_dependency (some pkg) repo).1.changes_made = [])
    ∧ ((fix_missing_dependency (some pkg) repo).2 ≠ repo →
        strContains (currentReqContent repo) pkg = false
      ∧ (fix_missing_dependency (some pkg) repo).2 =
          some (some (newRequirements (currentReqContent repo) pkg))) := by
  intro pkg repo hne
  have htr : optStrTruthy (some pkg) = true := by
    simp [optStrTruthy, hne]
  by_cases hc : strContains (currentReqContent repo) pkg = true
  · constructor
    · intro _
      refine ⟨?_, ?_, ?_⟩ <;> simp [fix_missing_dependency, htr, hc]
    · intro hdiff
      exfalso
      apply hdiff
      simp [fix_missing_dependency, htr, hc]
  · have hc' : strContains (currentReqContent repo) pkg = false := by
      simpa using hc
    constructor
    · intro habs
      rw [habs] at hc'
      simp at hc'
    · intro hdiff
      refine ⟨hc', ?_⟩
      cases repo with
      | some x => simp [fix_missing_dependency, htr, hc']
      | none =>
          exfalso
          apply hdiff
          simp [fix_missing_dependency, htr, hc']

/-- Witness for C8: `pandas` already present in the manifest gives an
unchanged repository and an empty change list. -/
theorem c8_manifest_noop_witness :
    (fix_missing_dependency (some "pandas") (some (some "numpy\npandas\n"))).2
      = some (some "numpy\npandas\n")
  ∧ (fix_missing_dependency (some "pandas") (some (some "numpy\npandas\n"))).1.changes_made
      = [] := by
  have h := (c8_manifest_noop "pandas" (some (some "numpy\npandas\n")) (by decide)).1 (by decide)
  exact ⟨h.1, h.2.2⟩

set_option maxRecDepth 100000 in
/-- Claim C9: the eviction performed once the dedup set exceeds 200
entries does not remove oldest entries first — under a legal `set.pop`
order the oldest id 1 survives while the newest id 201 is evicted (the
set is still trimmed to 100 entries). -/
theorem c9_eviction_not_oldest_first :
    ((processRun newestPopSel fullSeenState newestRun).lastSeen.contains 1 = true)
  ∧ ((processRun newestPopSel fullSeenState newestRun).lastSeen.contains 201 = false)
  ∧ ((processRun newestPopSel fullSeenState newestRun).lastSeen.length = 100) := by
  refine ⟨?_, ?_, ?_⟩ <;> decide

/-- Claim C10: with the model loaded and a successful scoring call, the
returned `will_fail` flag is true exactly when the computed probability
strictly exceeds 0.5. -/
theorem c10_will_fail_boundary :
    ∀ (scaler : List ℚ → Except String (List ℚ)) (model : List ℚ → Except String ℚ)
      (features : List ℚ) (p : ℚ) (pr : FailurePrediction),
      runModel scaler model features = Except.ok p →
      predict_failure true scaler model features = Except.ok pr →
      (pr.will_fail = true ↔ mkRat 1 2 < p) := by
  intro sc m feats p pr hrm hpf
  simp [predict_failure, hrm] at hpf
  subst hpf
  simp

/-- Witness for C10: a scored probability of exactly 0.5 yields
`will_fail = false`. -/
theorem c10_will_fail_boundary_witness :
    ((FailurePrediction.mk false (mkRat 1 2) "medium" ["Low test coverage"]).will_fail = true)
      ↔ (mkRat 1 2 < mkRat 1 2) :=
  c10_will_fail_boundary (fun l => Except.ok l) (fun _ => Except.ok (mkRat 1 2)) []
    (mkRat 1 2) (FailurePrediction.mk false (mkRat 1 2) "medium" ["Low test coverage"]) rfl rfl
